import Mathlib

/-!
Shallow embedding of the client-side state reconciliation engine of the
MultiModalRAG frontend: the optimistic send-message handler of the project
chat page (`handleSendMessage` in the chat page component), the document
convergence poller, and the draft/publish settings handlers of the project
page (`handleDraftSettings`, `handlePublishSettings`), together with proofs
of the specified properties.
-/

/-! ## Data model

`Message` mirrors the `Message` records built and consumed by
`handleSendMessage`: identifier, owning chat, content, role, author,
creation instant, citations.  Timestamps are modelled as the integral
millisecond instant (`Date.now()`); the ISO rendering of `created_at` is
irrelevant to every property below. -/

structure Message where
  id : String
  chat_id : String
  content : String
  role : String
  clerk_id : String
  created_at : Nat
  citations : List String
deriving DecidableEq, Repr

/-- A chat together with its ordered message sequence (`ChatWithMessages`). -/
structure ChatWithMessages where
  id : String
  project_id : String
  title : String
  created_at : Nat
  messages : List Message
deriving DecidableEq, Repr

/-- The chat page component state touched by `handleSendMessage`. -/
structure ChatPageState where
  currentChatData : Option ChatWithMessages
  sendMessageError : Option String
  isMessageSending : Bool
deriving DecidableEq, Repr

/-! ## Tentative identifiers

The source mints tentative identifiers as the template literal
`temp-${Date.now()}` and recognises them with `id.startsWith("temp-")`.
We embed the recognizer as a prefix test on the character sequence of the
string, which is what `String.prototype.startsWith` computes. -/

def tempTag : String := "temp-"

/-- Character-sequence prefix test: `charsLeadWith p s` holds when `p` is an
initial segment of `s` (the semantics of `startsWith`). -/
def charsLeadWith : List Char → List Char → Bool
  | [], _ => true
  | _ :: _, [] => false
  | p :: ps, c :: cs => p == c && charsLeadWith ps cs

/-- Embedding of `msg.id.startsWith("temp-")` from the source. -/
def isTentId (id : String) : Bool :=
  charsLeadWith tempTag.data id.data

/-- The tentative identifier minted by one `handleSendMessage` call:
`temp-` followed by the decimal rendering of the current millisecond. -/
def mintTentativeId (now : Nat) : String :=
  tempTag ++ Nat.repr now

/-- The optimistic user message built at the top of `handleSendMessage`. -/
def mkOptimisticMessage (chatId uid content : String) (now : Nat) : Message :=
  { id := mintTentativeId now
    chat_id := chatId
    content := content
    role := "user"
    clerk_id := uid
    created_at := now
    citations := [] }

/-! ## The three store updaters of `handleSendMessage`

Each is one functional `setCurrentChatData` updater from the source: the
optimistic append, the success reconciliation, and the failure rollback. -/

/-- Optimistic write: `prev.messages` with the optimistic message appended at the end. -/
def optimisticAppend (chat : ChatWithMessages) (m : Message) : ChatWithMessages :=
  { chat with messages := chat.messages ++ [m] }

/-- Success reconciliation: drop every message whose identifier equals the
tentative identifier this call minted, then append the confirmed user
message and the assistant reply, in that order — one store update. -/
def reconcileSuccess (tentId : String) (userMessage aiResponse : Message)
    (chat : ChatWithMessages) : ChatWithMessages :=
  { chat with messages :=
      chat.messages.filter (fun msg => msg.id != tentId) ++ [userMessage, aiResponse] }

/-- Failure rollback: drop every message whose identifier starts with the
tentative tag (`!msg.id.startsWith("temp-")` filter). -/
def rollbackFailure (chat : ChatWithMessages) : ChatWithMessages :=
  { chat with messages := chat.messages.filter (fun msg => !(isTentId msg.id)) }

/-- Result of one `handleSendMessage` call: the component state after the
call settles and whether the remote create-message request was issued. -/
structure SendOutcome where
  state : ChatPageState
  requestIssued : Bool
deriving DecidableEq, Repr

/-- One sequential `handleSendMessage(content)` call.  `userId` is the
authenticated actor (possibly absent), `now` the millisecond at which the
tentative identifier is minted, and `remote` the outcome of the remote
create-message round trip (`{userMessage, aiResponse}` on success). -/
def handleSendMessage (st : ChatPageState) (userId : Option String)
    (content : String) (now : Nat)
    (remote : Except Unit (Message × Message)) : SendOutcome :=
  let st1 : ChatPageState := { st with sendMessageError := none, isMessageSending := true }
  match st1.currentChatData, userId with
  | some chat, some uid =>
    let optimistic := mkOptimisticMessage chat.id uid content now
    let afterAppend := optimisticAppend chat optimistic
    match remote with
    | .ok (userMessage, aiResponse) =>
      { state := { st1 with
          currentChatData :=
            some (reconcileSuccess optimistic.id userMessage aiResponse afterAppend)
          isMessageSending := false }
        requestIssued := true }
    | .error _ =>
      { state := { st1 with
          currentChatData := some (rollbackFailure afterAppend)
          sendMessageError := some "Failed to send message"
          isMessageSending := false }
        requestIssued := true }
  | _, _ =>
    { state := { st1 with
        sendMessageError := some "Chat or user not found"
        isMessageSending := false }
      requestIssued := false }

/-! ## Decimal rendering

`Nat.repr` is the decimal rendering used by the template literal.  To reason
about identifier collisions we relate it to a structurally recursive digit
function and prove injectivity. -/

/-- Decimal digit characters of `n`, most significant first. -/
def decChars (n : Nat) : List Char :=
  if _h : n < 10 then [Nat.digitChar n]
  else decChars (n / 10) ++ [Nat.digitChar (n % 10)]
termination_by n
decreasing_by exact Nat.div_lt_self (by omega) (by omega)

/-! ## Convergence poller (project page)

The project page schedules a 2-second interval whenever some document's
`processing_status` is present and not in `["completed", "failed"]`; each
tick re-fetches the document collection and wholesale-replaces the store's
copy, and the effect re-evaluates the condition on the new collection.  A
failed tick only logs and leaves both the collection and the schedule
untouched. -/

/-- A knowledge-base document as observed by the poller.  `processing_status`
is optional in the source (`doc.processing_status && ...`). -/
structure ProjectDocument where
  id : String
  project_id : String
  source : String
  processing_status : Option String
deriving DecidableEq, Repr

/-- The two terminal labels of the processing state machine. -/
def terminalStatuses : List String := ["completed", "failed"]

/-- Embedding of `doc.processing_status && !["completed","failed"].includes(doc.processing_status)`:
a present, non-empty status outside the terminal labels.  (An absent or empty
status is falsy in the source and therefore counts as not processing.) -/
def isProcessingDoc (d : ProjectDocument) : Bool :=
  match d.processing_status with
  | some s => !s.isEmpty && !(terminalStatuses.contains s)
  | none => false

/-- Embedding of `data.documents.some(...)` — whether any document is still processing. -/
def hasProcessingDocuments (docs : List ProjectDocument) : Bool :=
  docs.any isProcessingDoc

/-- Poller state: the store's document collection plus whether an interval
is currently scheduled. -/
structure PollerState where
  docs : List ProjectDocument
  polling : Bool
deriving DecidableEq, Repr

/-- The polling effect body: evaluated against the current collection, it
schedules the interval exactly when some document is still processing. -/
def pollerEffect (docs : List ProjectDocument) : PollerState :=
  { docs := docs, polling := hasProcessingDocuments docs }

/-- A tick exists (and issues a refresh request) only while the interval is
scheduled. -/
def tickIssuesRefresh (s : PollerState) : Bool := s.polling

/-- One interval tick: while polling, a refresh is issued; on success
(`fetch = some newDocs`) the collection is wholesale-replaced and the effect
re-evaluates on the new collection; on failure (`fetch = none`) the error is
only logged — the collection and the schedule are left untouched. -/
def pollTick (s : PollerState) (fetch : Option (List ProjectDocument)) : PollerState :=
  if s.polling then
    match fetch with
    | some newDocs => pollerEffect newDocs
    | none => s
  else s

/-- A document's status is terminal: `completed` or `failed`. -/
def terminalDoc (d : ProjectDocument) : Prop :=
  d.processing_status = some "completed" ∨ d.processing_status = some "failed"

instance (d : ProjectDocument) : Decidable (terminalDoc d) := by
  unfold terminalDoc
  infer_instance

/-- The label set of the processing state machine, as carried by a document. -/
def statusLabels : List (Option String) :=
  [some "queued", some "processing", some "completed", some "failed"]

/-! ## Draft/publish settings (project page)

The settings type declarations are not part of the provided tree, so the
settings value is modelled from the spec: "ProjectSettings: owning project
identifier, a mapping of configuration keys to values."  The handlers
themselves are translated from `handleDraftSettings` and
`handlePublishSettings` in the project page. -/

/-- Modelled from the spec: the missing `ProjectSettings` type declaration —
a mapping of configuration keys to values. -/
def ProjectSettings := String → String

/-- Modelled from the spec: a partial settings update names values for a
subset of the configuration keys (`Partial<ProjectSettings>`). -/
def PartialSettings := String → Option String

/-- The object spread `{ ...prev.settings, ...updates }`: keys named by the
partial take its value, every other key keeps the previous value. -/
def mergeSettings (prev : ProjectSettings) (updates : PartialSettings) : ProjectSettings :=
  fun k => (updates k).getD (prev k)

/-- A project. -/
structure Project where
  id : String
  name : String
  description : String
  clerk_id : String
  created_at : Nat
deriving DecidableEq, Repr

/-- A chat list entry of the project page. -/
structure Chat where
  id : String
  project_id : String
  title : String
  created_at : Nat
deriving DecidableEq, Repr

/-- The project page's `ProjectData` state. -/
structure ProjectPageData where
  project : Option Project
  chats : List Chat
  documents : List ProjectDocument
  settings : Option ProjectSettings

/-- Result of `handleDraftSettings`: the new page data, whether the
"no existing settings" diagnostic was emitted, and whether any network
request was issued (never — the handler is a pure store update). -/
structure DraftOutcome where
  data : ProjectPageData
  warned : Bool
  requestIssued : Bool

/-- Handler `handleDraftSettings(updates)`: merge the partial into the current
settings copy; if no settings copy exists, warn and leave the data
unchanged.  No network call in either case. -/
def handleDraftSettings (prev : ProjectPageData) (updates : PartialSettings) : DraftOutcome :=
  match prev.settings with
  | some s =>
    { data := { prev with settings := some (mergeSettings s updates) }
      warned := false
      requestIssued := false }
  | none =>
    { data := prev, warned := true, requestIssued := false }

/-- Result of `handlePublishSettings`: the page data after the call, the
payload of the PUT request if one was issued, and the surfaced error. -/
structure PublishOutcome where
  data : ProjectPageData
  request : Option ProjectSettings
  errorMsg : Option String

/-- Handler `handlePublishSettings()`: silently return unless an authenticated
actor and a settings copy are present; otherwise PUT the entire current
settings object and, on failure, surface the error while leaving the data
untouched. -/
def handlePublishSettings (userId : Option String) (st : ProjectPageData)
    (remote : Except String Unit) : PublishOutcome :=
  match userId, st.settings with
  | some _, some s =>
    match remote with
    | .ok _ => { data := st, request := some s, errorMsg := none }
    | .error e => { data := st, request := some s, errorMsg := some e }
  | _, _ => { data := st, request := none, errorMsg := none }

/-! ## Sample values used by the witnesses -/

def chat0 : ChatWithMessages :=
  { id := "c1", project_id := "p1", title := "First chat", created_at := 0, messages := [] }

def st0 : ChatPageState :=
  { currentChatData := some chat0, sendMessageError := none, isMessageSending := false }

def stNoChat : ChatPageState :=
  { currentChatData := none, sendMessageError := none, isMessageSending := false }

def msgU : Message :=
  { id := "m-user-1", chat_id := "c1", content := "hello", role := "user"
    clerk_id := "u1", created_at := 7, citations := [] }

def msgA : Message :=
  { id := "m-ai-1", chat_id := "c1", content := "hi there", role := "assistant"
    clerk_id := "u1", created_at := 7, citations := [] }

def msgU2 : Message :=
  { id := "m-user-2", chat_id := "c1", content := "second", role := "user"
    clerk_id := "u1", created_at := 9, citations := [] }

def msgA2 : Message :=
  { id := "m-ai-2", chat_id := "c1", content := "second reply", role := "assistant"
    clerk_id := "u1", created_at := 9, citations := [] }

def docPending : ProjectDocument :=
  { id := "d1", project_id := "p1", source := "notes.pdf", processing_status := some "processing" }

def docDone : ProjectDocument :=
  { id := "d1", project_id := "p1", source := "notes.pdf", processing_status := some "completed" }

def settings0 : ProjectSettings := fun _ => "default"

def updatesModel : PartialSettings :=
  fun k => if k = "model" then some "m2" else none

def pdata0 : ProjectPageData :=
  { project := none, chats := [], documents := [], settings := some settings0 }

def pdataNoSettings : ProjectPageData :=
  { project := none, chats := [], documents := [], settings := none }

/-! ## Helper lemmas -/

theorem charsLeadWith_append (p r : List Char) : charsLeadWith p (p ++ r) = true := by
  induction p with
  | nil => rfl
  | cons c cs ih => simp [charsLeadWith, ih]

theorem isTentId_mint (t : Nat) : isTentId (mintTentativeId t) = true := by
  have h : (mintTentativeId t).data = tempTag.data ++ (Nat.repr t).data := by
    simp [mintTentativeId, String.data_append]
  rw [isTentId, h]
  exact charsLeadWith_append _ _

theorem ne_of_isTentId_false {s : String} {t : Nat}
    (h : isTentId s = false) : s ≠ mintTentativeId t := by
  intro heq
  rw [heq, isTentId_mint] at h
  cases h

theorem filter_bne_append_single (ms : List Message) (x : Message) (tid : String)
    (hx : x.id = tid) (h : ∀ m ∈ ms, m.id ≠ tid) :
    (ms ++ [x]).filter (fun m => m.id != tid) = ms := by
  rw [List.filter_append]
  have h1 : ms.filter (fun m => m.id != tid) = ms := by
    apply List.filter_eq_self.mpr
    intro m hm
    simpa [bne_iff_ne] using h m hm
  have h2 : [x].filter (fun m => m.id != tid) = [] := by simp [hx]
  rw [h1, h2, List.append_nil]

theorem filter_bne_of_all_ne (ms : List Message) (tid : String)
    (h : ∀ m ∈ ms, m.id ≠ tid) :
    ms.filter (fun m => m.id != tid) = ms := by
  apply List.filter_eq_self.mpr
  intro m hm
  simpa [bne_iff_ne] using h m hm

theorem optimisticAppend_messages (c : ChatWithMessages) (m : Message) :
    (optimisticAppend c m).messages = c.messages ++ [m] := rfl

theorem reconcileSuccess_messages (tid : String) (um ar : Message) (c : ChatWithMessages) :
    (reconcileSuccess tid um ar c).messages
      = c.messages.filter (fun msg => msg.id != tid) ++ [um, ar] := rfl

theorem rollbackFailure_messages (c : ChatWithMessages) :
    (rollbackFailure c).messages = c.messages.filter (fun msg => !(isTentId msg.id)) := rfl

theorem decChars_lt {n : Nat} (h : n < 10) : decChars n = [Nat.digitChar n] := by
  rw [decChars]
  simp [h]

theorem decChars_ge {n : Nat} (h : ¬ n < 10) :
    decChars n = decChars (n / 10) ++ [Nat.digitChar (n % 10)] := by
  rw [decChars]
  simp [h]

theorem decChars_ne_nil (n : Nat) : decChars n ≠ [] := by
  by_cases h : n < 10
  · rw [decChars_lt h]
    simp
  · rw [decChars_ge h]
    simp

theorem toDigitsCore_eq_decChars (fuel : Nat) : ∀ (n : Nat) (ds : List Char), n < fuel →
    Nat.toDigitsCore 10 fuel n ds = decChars n ++ ds := by
  induction fuel with
  | zero => intro n ds h; omega
  | succ f ih =>
    intro n ds h
    rw [Nat.toDigitsCore]
    by_cases hn : n < 10
    · rw [if_pos (Nat.div_eq_of_lt hn), decChars_lt hn, Nat.mod_eq_of_lt hn]
      simp
    · have hdiv0 : n / 10 ≠ 0 := by
        have := Nat.div_pos (by omega : 10 ≤ n) (by omega : 0 < 10)
        omega
      rw [if_neg hdiv0]
      have hdivlt : n / 10 < f := by
        have h1 : n / 10 < n := Nat.div_lt_self (by omega) (by omega)
        omega
      rw [ih (n / 10) (Nat.digitChar (n % 10) :: ds) hdivlt, decChars_ge hn]
      simp

theorem digitChar_inj_lt : ∀ m < 10, ∀ n < 10, Nat.digitChar m = Nat.digitChar n → m = n := by
  decide

theorem decChars_injective : ∀ m n : Nat, decChars m = decChars n → m = n := by
  intro m
  induction m using Nat.strong_induction_on with
  | _ m ih =>
    intro n h
    by_cases hm : m < 10 <;> by_cases hn : n < 10
    · rw [decChars_lt hm, decChars_lt hn] at h
      exact digitChar_inj_lt m hm n hn (List.cons.inj h).1
    · rw [decChars_lt hm, decChars_ge hn] at h
      have hlen := congrArg List.length h
      rw [List.length_append] at hlen
      simp only [List.length_singleton] at hlen
      have h0 : (decChars (n / 10)).length = 0 := by omega
      exact absurd (List.eq_nil_of_length_eq_zero h0) (decChars_ne_nil (n / 10))
    · rw [decChars_ge hm, decChars_lt hn] at h
      have hlen := congrArg List.length h
      rw [List.length_append] at hlen
      simp only [List.length_singleton] at hlen
      have h0 : (decChars (m / 10)).length = 0 := by omega
      exact absurd (List.eq_nil_of_length_eq_zero h0) (decChars_ne_nil (m / 10))
    · rw [decChars_ge hm, decChars_ge hn] at h
      have hlen : (decChars (m / 10)).length = (decChars (n / 10)).length := by
        have h' := congrArg List.length h
        simp at h'
        omega
      obtain ⟨h1, h2⟩ := List.append_inj h hlen
      have hdiv : m / 10 = n / 10 :=
        ih (m / 10) (Nat.div_lt_self (by omega) (by omega)) (n / 10) h1
      have hmod : m % 10 = n % 10 :=
        digitChar_inj_lt (m % 10) (Nat.mod_lt _ (by omega)) (n % 10) (Nat.mod_lt _ (by omega))
          (List.cons.inj h2).1
      omega

theorem natRepr_injective {m n : Nat} (h : Nat.repr m = Nat.repr n) : m = n := by
  have hd : Nat.toDigits 10 m = Nat.toDigits 10 n := by
    have h' := congrArg String.data h
    simpa [Nat.repr, List.asString] using h'
  rw [Nat.toDigits, Nat.toDigits,
    toDigitsCore_eq_decChars (m + 1) m [] (by omega),
    toDigitsCore_eq_decChars (n + 1) n [] (by omega)] at hd
  simp at hd
  exact decChars_injective m n hd

theorem mintTentativeId_inj {t1 t2 : Nat}
    (h : mintTentativeId t1 = mintTentativeId t2) : t1 = t2 := by
  apply natRepr_injective
  have h' := congrArg String.data h
  simp [mintTentativeId, String.data_append] at h'
  exact String.ext h'

theorem handleSendMessage_ok_eq (st : ChatPageState) (chat : ChatWithMessages)
    (uid content : String) (now : Nat) (um ar : Message)
    (hchat : st.currentChatData = some chat) :
    handleSendMessage st (some uid) content now (.ok (um, ar)) =
      { state :=
          { currentChatData :=
              some (reconcileSuccess (mintTentativeId now) um ar
                (optimisticAppend chat (mkOptimisticMessage chat.id uid content now)))
            sendMessageError := none
            isMessageSending := false }
        requestIssued := true } := by
  cases st
  simp only at hchat
  subst hchat
  rfl

theorem handleSendMessage_err_eq (st : ChatPageState) (chat : ChatWithMessages)
    (uid content : String) (now : Nat)
    (hchat : st.currentChatData = some chat) :
    handleSendMessage st (some uid) content now (.error ()) =
      { state :=
          { currentChatData :=
              some (rollbackFailure
                (optimisticAppend chat (mkOptimisticMessage chat.id uid content now)))
            sendMessageError := some "Failed to send message"
            isMessageSending := false }
        requestIssued := true } := by
  cases st
  simp only at hchat
  subst hchat
  rfl

theorem isProcessingDoc_of_terminal {d : ProjectDocument} (h : terminalDoc d) :
    isProcessingDoc d = false := by
  rcases h with h | h <;> rw [isProcessingDoc, h] <;> decide

theorem isProcessingDoc_of_nonterminal {d : ProjectDocument}
    (hl : d.processing_status ∈ statusLabels) (h : ¬ terminalDoc d) :
    isProcessingDoc d = true := by
  simp [statusLabels] at hl
  rcases hl with h' | h' | h' | h'
  · rw [isProcessingDoc, h']
    decide
  · rw [isProcessingDoc, h']
    decide
  · exact absurd (Or.inl h') h
  · exact absurd (Or.inr h') h

theorem hasProcessingDocuments_of_all_terminal {l : List ProjectDocument}
    (hl : ∀ d ∈ l, terminalDoc d) : hasProcessingDocuments l = false := by
  rw [hasProcessingDocuments, List.any_eq_false]
  intro d hd
  simp [isProcessingDoc_of_terminal (hl d hd)]

/-! ## Claim theorems -/

/-- Claim C1: for every `sendMessage` call that succeeds, the reconciliation
is the single store update `reconcileSuccess`, which removes the tentative
message matched by the tentative identifier this call minted and appends the
confirmed user message followed by the assistant reply, in that order; when
the chat held no tentative entries before the call and the server-assigned
identifiers are durable (not tentative-prefixed), the resulting message
sequence contains no tentative-identifier entries and exactly the one new
user/assistant pair, user message first. -/
theorem sendMessage_success_reconciliation
    (st : ChatPageState) (chat : ChatWithMessages) (uid content : String) (now : Nat)
    (um ar : Message)
    (hchat : st.currentChatData = some chat)
    (hclean : ∀ m ∈ chat.messages, isTentId m.id = false)
    (hum : isTentId um.id = false) (har : isTentId ar.id = false) :
    ∃ chat',
      (handleSendMessage st (some uid) content now (.ok (um, ar))).state.currentChatData
        = some chat' ∧
      chat'.id = chat.id ∧
      chat'.messages = chat.messages ++ [um, ar] ∧
      ∀ m ∈ chat'.messages, isTentId m.id = false := by
  have hids : ∀ m ∈ chat.messages, m.id ≠ mintTentativeId now :=
    fun m hm => ne_of_isTentId_false (hclean m hm)
  have heq := handleSendMessage_ok_eq st chat uid content now um ar hchat
  have hmsgs :
      (reconcileSuccess (mintTentativeId now) um ar
        (optimisticAppend chat (mkOptimisticMessage chat.id uid content now))).messages
        = chat.messages ++ [um, ar] := by
    rw [reconcileSuccess_messages, optimisticAppend_messages,
      filter_bne_append_single chat.messages (mkOptimisticMessage chat.id uid content now)
        (mintTentativeId now) rfl hids]
  refine ⟨reconcileSuccess (mintTentativeId now) um ar
    (optimisticAppend chat (mkOptimisticMessage chat.id uid content now)),
    by rw [heq], rfl, hmsgs, ?_⟩
  rw [hmsgs]
  intro m hm
  rcases List.mem_append.mp hm with hm | hm
  · exact hclean m hm
  · simp only [List.mem_cons, List.not_mem_nil, or_false] at hm
    rcases hm with rfl | rfl
    · exact hum
    · exact har

theorem sendMessage_success_reconciliation_witness :
    ∃ chat',
      (handleSendMessage st0 (some "u1") "hello" 7 (.ok (msgU, msgA))).state.currentChatData
        = some chat' ∧
      chat'.id = chat0.id ∧
      chat'.messages = chat0.messages ++ [msgU, msgA] ∧
      ∀ m ∈ chat'.messages, isTentId m.id = false :=
  sendMessage_success_reconciliation st0 chat0 "u1" "hello" 7 msgU msgA rfl
    (by decide) (by decide) (by decide)

/-- Claim C2: for every `sendMessage` call that fails on the remote round
trip, the rollback removes all tentative messages of the chat; when the chat
held no tentative entries before the call (the maintained invariant), the
resulting message sequence equals the pre-call sequence, no tentative entry
remains, and the caller sees the recoverable error string. -/
theorem sendMessage_failure_rollback
    (st : ChatPageState) (chat : ChatWithMessages) (uid content : String) (now : Nat)
    (hchat : st.currentChatData = some chat)
    (hclean : ∀ m ∈ chat.messages, isTentId m.id = false) :
    ∃ chat',
      (handleSendMessage st (some uid) content now (.error ())).state.currentChatData
        = some chat' ∧
      chat'.id = chat.id ∧
      chat'.messages = chat.messages ∧
      (∀ m ∈ chat'.messages, isTentId m.id = false) ∧
      (handleSendMessage st (some uid) content now (.error ())).state.sendMessageError
        = some "Failed to send message" ∧
      (handleSendMessage st (some uid) content now (.error ())).requestIssued = true := by
  have heq := handleSendMessage_err_eq st chat uid content now hchat
  have hmsgs :
      (rollbackFailure
        (optimisticAppend chat (mkOptimisticMessage chat.id uid content now))).messages
        = chat.messages := by
    rw [rollbackFailure_messages, optimisticAppend_messages, List.filter_append]
    have h1 : chat.messages.filter (fun msg => !(isTentId msg.id)) = chat.messages := by
      apply List.filter_eq_self.mpr
      intro m hm
      simp [hclean m hm]
    have h2 : [mkOptimisticMessage chat.id uid content now].filter
        (fun msg => !(isTentId msg.id)) = [] := by
      simp [mkOptimisticMessage, isTentId_mint]
    rw [h1, h2, List.append_nil]
  refine ⟨rollbackFailure
    (optimisticAppend chat (mkOptimisticMessage chat.id uid content now)),
    by rw [heq], rfl, hmsgs, ?_, by rw [heq], by rw [heq]⟩
  rw [hmsgs]
  exact hclean

theorem sendMessage_failure_rollback_witness :
    ∃ chat',
      (handleSendMessage st0 (some "u1") "hello" 7 (.error ())).state.currentChatData
        = some chat' ∧
      chat'.id = chat0.id ∧
      chat'.messages = chat0.messages ∧
      (∀ m ∈ chat'.messages, isTentId m.id = false) ∧
      (handleSendMessage st0 (some "u1") "hello" 7 (.error ())).state.sendMessageError
        = some "Failed to send message" ∧
      (handleSendMessage st0 (some "u1") "hello" 7 (.error ())).requestIssued = true :=
  sendMessage_failure_rollback st0 chat0 "u1" "hello" 7 rfl (by decide)

/-- Claim C5: a `sendMessage` call made without a loaded chat or without an
authenticated actor fails immediately with the invalid-state error string,
performs no mutation of the chat data, and issues no remote request. -/
theorem sendMessage_invalid_state (st : ChatPageState) (userId : Option String)
    (content : String) (now : Nat) (remote : Except Unit (Message × Message))
    (h : st.currentChatData = none ∨ userId = none) :
    (handleSendMessage st userId content now remote).state.currentChatData
      = st.currentChatData ∧
    (handleSendMessage st userId content now remote).requestIssued = false ∧
    (handleSendMessage st userId content now remote).state.sendMessageError
      = some "Chat or user not found" := by
  obtain ⟨cd, se, ms⟩ := st
  rcases h with h | h
  · have h' : cd = none := h
    subst h'
    cases userId <;> exact ⟨rfl, rfl, rfl⟩
  · subst h
    cases cd <;> exact ⟨rfl, rfl, rfl⟩

theorem sendMessage_invalid_state_witness :
    (handleSendMessage stNoChat (some "u1") "hello" 7 (.ok (msgU, msgA))).state.currentChatData
      = stNoChat.currentChatData ∧
    (handleSendMessage stNoChat (some "u1") "hello" 7 (.ok (msgU, msgA))).requestIssued = false ∧
    (handleSendMessage stNoChat (some "u1") "hello" 7 (.ok (msgU, msgA))).state.sendMessageError
      = some "Chat or user not found" :=
  sendMessage_invalid_state stNoChat (some "u1") "hello" 7 (.ok (msgU, msgA)) (Or.inl rfl)

/-- Claim C3 (counterexample): the failure rollback does not touch only the
tentative identifier its own call minted.  Concretely: call A appends its
tentative message (minted at millisecond 1), call B appends its own (minted
at millisecond 2, a different identifier); when B's round trip fails, the
rollback filter removes every `temp-`-prefixed message, so A's still-pending
tentative message is removed as well. -/
theorem sendMessage_rollback_clobbers_other_tentative :
    (mkOptimisticMessage "c1" "u1" "first" 1).id
      ≠ (mkOptimisticMessage "c1" "u1" "second" 2).id ∧
    mkOptimisticMessage "c1" "u1" "first" 1 ∈
      (optimisticAppend (optimisticAppend chat0 (mkOptimisticMessage "c1" "u1" "first" 1))
        (mkOptimisticMessage "c1" "u1" "second" 2)).messages ∧
    mkOptimisticMessage "c1" "u1" "first" 1 ∉
      (rollbackFailure
        (optimisticAppend (optimisticAppend chat0 (mkOptimisticMessage "c1" "u1" "first" 1))
          (mkOptimisticMessage "c1" "u1" "second" 2))).messages := by
  decide

/-- Claim C3 (amended): for two interleaved `sendMessage` calls on the same
chat that both succeed, each call's success reconciliation removes only the
tentative identifier it itself minted, provided the two calls minted
distinct identifiers (distinct milliseconds) and the server-assigned
identifiers are durable; the chat then gains exactly four new messages —
two user/assistant pairs, each user message preceding its reply.  (The
failure rollback, by contrast, removes all tentative messages of the chat,
including another in-flight call's tentative entry.) -/
theorem concurrent_sends_reconciliation
    (chat : ChatWithMessages) (uidA uidB cA cB : String) (tA tB : Nat)
    (umA arA umB arB : Message)
    (hclean : ∀ m ∈ chat.messages, isTentId m.id = false)
    (hne : mintTentativeId tA ≠ mintTentativeId tB)
    (humA : isTentId umA.id = false) (harA : isTentId arA.id = false) :
    (reconcileSuccess (mintTentativeId tB) umB arB
      (reconcileSuccess (mintTentativeId tA) umA arA
        (optimisticAppend (optimisticAppend chat (mkOptimisticMessage chat.id uidA cA tA))
          (mkOptimisticMessage chat.id uidB cB tB)))).messages
      = chat.messages ++ [umA, arA, umB, arB] := by
  have hpA : ∀ m ∈ chat.messages, m.id ≠ mintTentativeId tA :=
    fun m hm => ne_of_isTentId_false (hclean m hm)
  have hpB : ∀ m ∈ chat.messages, m.id ≠ mintTentativeId tB :=
    fun m hm => ne_of_isTentId_false (hclean m hm)
  rw [reconcileSuccess_messages, reconcileSuccess_messages, optimisticAppend_messages,
    optimisticAppend_messages]
  have step1 : ((chat.messages ++ [mkOptimisticMessage chat.id uidA cA tA])
        ++ [mkOptimisticMessage chat.id uidB cB tB]).filter
        (fun msg => msg.id != mintTentativeId tA)
      = chat.messages ++ [mkOptimisticMessage chat.id uidB cB tB] := by
    rw [List.filter_append,
      filter_bne_append_single chat.messages (mkOptimisticMessage chat.id uidA cA tA)
        (mintTentativeId tA) rfl hpA,
      filter_bne_of_all_ne [mkOptimisticMessage chat.id uidB cB tB] (mintTentativeId tA)
        (by
          intro m hm
          simp only [List.mem_cons, List.not_mem_nil, or_false] at hm
          subst hm
          exact fun hEq => hne hEq.symm)]
  rw [step1]
  have step2 : ((chat.messages ++ [mkOptimisticMessage chat.id uidB cB tB])
        ++ [umA, arA]).filter (fun msg => msg.id != mintTentativeId tB)
      = chat.messages ++ [umA, arA] := by
    rw [List.filter_append,
      filter_bne_append_single chat.messages (mkOptimisticMessage chat.id uidB cB tB)
        (mintTentativeId tB) rfl hpB,
      filter_bne_of_all_ne [umA, arA] (mintTentativeId tB)
        (by
          intro m hm
          simp only [List.mem_cons, List.not_mem_nil, or_false] at hm
          rcases hm with rfl | rfl
          · exact ne_of_isTentId_false humA
          · exact ne_of_isTentId_false harA)]
  rw [step2, List.append_assoc]
  rfl

theorem concurrent_sends_reconciliation_witness :
    (reconcileSuccess (mintTentativeId 2) msgU2 msgA2
      (reconcileSuccess (mintTentativeId 1) msgU msgA
        (optimisticAppend (optimisticAppend chat0 (mkOptimisticMessage chat0.id "u1" "first" 1))
          (mkOptimisticMessage chat0.id "u1" "second" 2)))).messages
      = chat0.messages ++ [msgU, msgA, msgU2, msgA2] :=
  concurrent_sends_reconciliation chat0 "u1" "u1" "first" "second" 1 2 msgU msgA msgU2 msgA2
    (by decide) (by decide) (by decide) (by decide)

/-- Claim C9 (counterexample): tentative identifiers are not unique per
session.  Two distinct `sendMessage` calls (different contents) whose
optimistic messages are minted in the same millisecond receive the same
tentative identifier `temp-123`. -/
theorem tentative_id_collision :
    "hello" ≠ "world" ∧
    (mkOptimisticMessage "c1" "u1" "hello" 123).id
      = (mkOptimisticMessage "c1" "u1" "world" 123).id := by
  decide

/-- Claim C9 (amended): every tentative identifier carries the recognizable
`temp-` tag distinguishing it from durable identifiers, and two
`sendMessage` calls mint distinct tentative identifiers whenever they
observe distinct millisecond timestamps; calls minting in the same
millisecond share one identifier. -/
theorem tentative_id_distinct_of_distinct_ticks (t1 t2 : Nat) (h : t1 ≠ t2) :
    isTentId (mintTentativeId t1) = true ∧ mintTentativeId t1 ≠ mintTentativeId t2 :=
  ⟨isTentId_mint t1, fun he => h (mintTentativeId_inj he)⟩

theorem tentative_id_distinct_of_distinct_ticks_witness :
    isTentId (mintTentativeId 1) = true ∧ mintTentativeId 1 ≠ mintTentativeId 2 :=
  tentative_id_distinct_of_distinct_ticks 1 2 (by decide)

/-- Claim C4: for every state of the document collection whose statuses come
from the processing state machine's label set — if the collection is empty
or every status is terminal, the poller is idle (no interval, no refresh
issued, a tick changes nothing); if at least one status is non-terminal, the
poller is polling: each tick issues a refresh and wholesale-replaces the
collection with the fetched one, and as soon as a fetched collection is
all-terminal the effect leaves the polling state. -/
theorem poller_idle_polling (docs : List ProjectDocument)
    (hlabels : ∀ d ∈ docs, d.processing_status ∈ statusLabels) :
    ((docs = [] ∨ ∀ d ∈ docs, terminalDoc d) →
      (pollerEffect docs).polling = false ∧
      tickIssuesRefresh (pollerEffect docs) = false ∧
      ∀ f, pollTick (pollerEffect docs) f = pollerEffect docs) ∧
    ((∃ d ∈ docs, ¬ terminalDoc d) →
      (pollerEffect docs).polling = true ∧
      tickIssuesRefresh (pollerEffect docs) = true ∧
      ∀ newDocs, (pollTick (pollerEffect docs) (some newDocs)).docs = newDocs ∧
        ((∀ d ∈ newDocs, terminalDoc d) →
          (pollTick (pollerEffect docs) (some newDocs)).polling = false)) := by
  constructor
  · intro h
    have hfalse : hasProcessingDocuments docs = false := by
      rcases h with h | h
      · rw [h]
        rfl
      · exact hasProcessingDocuments_of_all_terminal h
    refine ⟨hfalse, hfalse, ?_⟩
    intro f
    simp [pollTick, pollerEffect, hfalse]
  · rintro ⟨d, hd, hnt⟩
    have htrue : hasProcessingDocuments docs = true := by
      rw [hasProcessingDocuments, List.any_eq_true]
      exact ⟨d, hd, isProcessingDoc_of_nonterminal (hlabels d hd) hnt⟩
    refine ⟨htrue, htrue, ?_⟩
    intro newDocs
    constructor
    · simp [pollTick, pollerEffect, htrue]
    · intro hall
      simp [pollTick, pollerEffect, htrue,
        hasProcessingDocuments_of_all_terminal hall]

theorem poller_idle_polling_witness :
    (pollerEffect [docPending]).polling = true ∧
    tickIssuesRefresh (pollerEffect [docDone]) = false ∧
    (pollTick (pollerEffect [docPending]) (some [docDone])).docs = [docDone] ∧
    (pollTick (pollerEffect [docPending]) (some [docDone])).polling = false := by
  have h1 := (poller_idle_polling [docPending] (by decide)).2
    ⟨docPending, by decide, by decide⟩
  have h2 := (poller_idle_polling [docDone] (by decide)).1 (Or.inr (by decide))
  exact ⟨h1.1, h2.2.1, (h1.2.2 [docDone]).1, (h1.2.2 [docDone]).2 (by decide)⟩

/-- Claim C8: a failed refresh while the poller is polling does not stop
the loop and does not transition to idle: the tick leaves the state (and in
particular the stored collection) unchanged, the interval stays scheduled,
and the next tick issues a refresh again — the failure is only logged. -/
theorem poller_failed_refresh (s : PollerState) (hs : s.polling = true) :
    pollTick s none = s ∧
    (pollTick s none).docs = s.docs ∧
    (pollTick s none).polling = true ∧
    tickIssuesRefresh (pollTick s none) = true := by
  have h : pollTick s none = s := by simp [pollTick, hs]
  refine ⟨h, by rw [h], ?_, ?_⟩
  · rw [h]
    exact hs
  · show (pollTick s none).polling = true
    rw [h]
    exact hs

theorem poller_failed_refresh_witness :
    pollTick ⟨[docPending], true⟩ none = ⟨[docPending], true⟩ ∧
    (pollTick ⟨[docPending], true⟩ none).docs = [docPending] ∧
    (pollTick ⟨[docPending], true⟩ none).polling = true ∧
    tickIssuesRefresh (pollTick ⟨[docPending], true⟩ none) = true :=
  poller_failed_refresh ⟨[docPending], true⟩ rfl

/-- Claim C6: `updateDraft(partial)` — when a settings copy is loaded, the
partial's keys are merged into the draft with every key not named by the
partial left unchanged; when no settings copy has ever been loaded, the call
leaves the data unchanged (draft remains absent) and only emits the
diagnostic; in neither case is a network call issued. -/
theorem updateDraft_merge (st : ProjectPageData) (updates : PartialSettings) :
    (st.settings = none →
      (handleDraftSettings st updates).data = st ∧
      (handleDraftSettings st updates).data.settings = none ∧
      (handleDraftSettings st updates).warned = true ∧
      (handleDraftSettings st updates).requestIssued = false) ∧
    (∀ s, st.settings = some s →
      (handleDraftSettings st updates).data.settings = some (mergeSettings s updates) ∧
      (∀ k v, updates k = some v → mergeSettings s updates k = v) ∧
      (∀ k, updates k = none → mergeSettings s updates k = s k) ∧
      (handleDraftSettings st updates).warned = false ∧
      (handleDraftSettings st updates).requestIssued = false) := by
  obtain ⟨pr, chs, docs, stg⟩ := st
  constructor
  · intro h
    have h' : stg = none := h
    subst h'
    exact ⟨rfl, rfl, rfl, rfl⟩
  · intro s h
    have h' : stg = some s := h
    subst h'
    refine ⟨rfl, ?_, ?_, rfl, rfl⟩
    · intro k v hk
      show (updates k).getD (s k) = v
      rw [hk]
      rfl
    · intro k hk
      show (updates k).getD (s k) = s k
      rw [hk]
      rfl

theorem updateDraft_merge_witness :
    (handleDraftSettings pdata0 updatesModel).data.settings
      = some (mergeSettings settings0 updatesModel) ∧
    mergeSettings settings0 updatesModel "model" = "m2" ∧
    mergeSettings settings0 updatesModel "temperature" = settings0 "temperature" ∧
    (handleDraftSettings pdataNoSettings updatesModel).data = pdataNoSettings ∧
    (handleDraftSettings pdataNoSettings updatesModel).warned = true ∧
    (handleDraftSettings pdataNoSettings updatesModel).requestIssued = false := by
  have h := (updateDraft_merge pdata0 updatesModel).2 settings0 rfl
  have h0 := (updateDraft_merge pdataNoSettings updatesModel).1 rfl
  exact ⟨h.1, h.2.1 "model" "m2" rfl, h.2.2.1 "temperature" rfl, h0.1, h0.2.2.1, h0.2.2.2⟩

/-- Claim C7: a `publish()` call that fails on the remote round trip leaves
the page data — in particular the draft settings content — exactly as it
was, surfaces the error to the caller, and the request it issued carried
the entire current draft object. -/
theorem publish_failure_preserves_draft (uid e : String) (st : ProjectPageData)
    (s : ProjectSettings) (hs : st.settings = some s) :
    (handlePublishSettings (some uid) st (.error e)).data = st ∧
    (handlePublishSettings (some uid) st (.error e)).data.settings = some s ∧
    (handlePublishSettings (some uid) st (.error e)).request = some s ∧
    (handlePublishSettings (some uid) st (.error e)).errorMsg = some e := by
  obtain ⟨pr, chs, docs, stg⟩ := st
  have h' : stg = some s := hs
  subst h'
  exact ⟨rfl, rfl, rfl, rfl⟩

theorem publish_failure_preserves_draft_witness :
    (handlePublishSettings (some "u1") pdata0 (.error "boom")).data = pdata0 ∧
    (handlePublishSettings (some "u1") pdata0 (.error "boom")).data.settings
      = some settings0 ∧
    (handlePublishSettings (some "u1") pdata0 (.error "boom")).request = some settings0 ∧
    (handlePublishSettings (some "u1") pdata0 (.error "boom")).errorMsg = some "boom" :=
  publish_failure_preserves_draft "u1" "boom" pdata0 settings0 rfl

/-- Claim C10: a `publish()` call made before any settings copy has been
loaded, or without an authenticated actor, is a silent no-op: the data is
unchanged, no request is issued, and no error is surfaced. -/
theorem publish_noop_without_context (userId : Option String) (st : ProjectPageData)
    (remote : Except String Unit) (h : userId = none ∨ st.settings = none) :
    (handlePublishSettings userId st remote).data = st ∧
    (handlePublishSettings userId st remote).request = none ∧
    (handlePublishSettings userId st remote).errorMsg = none := by
  obtain ⟨pr, chs, docs, stg⟩ := st
  rcases h with h | h
  · subst h
    cases stg <;> exact ⟨rfl, rfl, rfl⟩
  · have h' : stg = none := h
    subst h'
    cases userId <;> exact ⟨rfl, rfl, rfl⟩

theorem publish_noop_without_context_witness :
    (handlePublishSettings (some "u1") pdataNoSettings (.ok ())).data = pdataNoSettings ∧
    (handlePublishSettings (some "u1") pdataNoSettings (.ok ())).request = none ∧
    (handlePublishSettings (some "u1") pdataNoSettings (.ok ())).errorMsg = none :=
  publish_noop_without_context (some "u1") pdataNoSettings (.ok ()) (Or.inr rfl)
